import Mathlib

/-!
Verification of the arxiv-search query-compilation layer.

Shallow embedding of:
* the Precedence Grouper (spec §4.1; exercised by
  `src/tests/test_services_index.py::TestPrepare.test_group_terms`),
* the SearchSession entry points of `src/search/services/index/__init__.py`
  (`handle_es_exceptions`, `search`, `get_document`, `cluster_available`,
  `add_document`, `bulk_add_documents`, `create_index`),
* the result transformer of `src/search/services/index.py`
  (`SearchSession.search` / `SearchSession._transform`),
* the date-form validators of `src/search/controllers/advanced/forms.py`.
-/

namespace ArxivSearch

/-- Logical operator joining a fielded search term to its left neighbour
(Python strings 'AND' / 'OR' / 'NOT'). -/
inductive Operator where
  | AND
  | OR
  | NOT
deriving DecidableEq, Repr

/-- A single fielded search clause: `FieldedSearchTerm` of the domain model.
`operator` is `none` only for the first term of a query. -/
structure FieldedSearchTerm where
  operator : Option Operator
  field : String
  term : String
deriving DecidableEq, Repr

/-- A grouped expression: binary tree with `FieldedSearchTerm` leaves and
`(left, operator, right)` internal nodes, mirroring the nested tuples the
grouper produces (see the `expected` trees in
`test_group_terms` / `test_group_terms_all_and`). -/
inductive GroupedExpr where
  | leaf (t : FieldedSearchTerm)
  | node (l : GroupedExpr) (op : Operator) (r : GroupedExpr)
deriving DecidableEq, Repr

/-- Modelled from the spec: the left-to-right scan of one precedence pass of
the grouper (§4.1), the grouper itself not being under `src/` (only its tests
and callers are).  `cur` is the element under the cursor; when the next
element is joined by `op` it is merged into `cur` as a `(left, op, right)`
node (keeping `cur`'s own joining operator) and the scan continues at the
merged element, so runs collapse strictly left-associatively; otherwise `cur`
is emitted and the scan moves on. -/
def collapseGo (op : Operator) (cur : Option Operator × GroupedExpr) :
    List (Option Operator × GroupedExpr) → List (Option Operator × GroupedExpr)
  | [] => [cur]
  | y :: rest =>
    if y.1 = some op then
      collapseGo op (cur.1, GroupedExpr.node cur.2 op y.2) rest
    else
      cur :: collapseGo op y rest

/-- Modelled from the spec: one precedence pass of the grouper (§4.1) over the
working list, each element carrying the operator that joins it to its left
neighbour. -/
def collapse (op : Operator) :
    List (Option Operator × GroupedExpr) → List (Option Operator × GroupedExpr)
  | [] => []
  | x :: rest => collapseGo op x rest

/-- Modelled from the spec: the Precedence Grouper (§4.1), missing from
`src/`.  Three passes, NOT first, then AND, then OR (NOT > AND > OR); the
result is the single remaining element, `none` when the passes do not reduce
the list to one element (the source's `assert len(terms) == 1`). -/
def group_terms (terms : List FieldedSearchTerm) : Option GroupedExpr :=
  let start := terms.map (fun t => (t.operator, GroupedExpr.leaf t))
  match collapse .OR (collapse .AND (collapse .NOT start)) with
  | [x] => some x.2
  | _ => none

/-- Leaves of a grouped expression, in left-to-right order. -/
def leaves : GroupedExpr → List FieldedSearchTerm
  | .leaf t => [t]
  | .node l _ r => leaves l ++ leaves r

/-- Concatenated leaves of a working list of the grouper. -/
def leavesList : List (Option Operator × GroupedExpr) → List FieldedSearchTerm
  | [] => []
  | p :: rest => leaves p.2 ++ leavesList rest

theorem collapseGo_leaves (op : Operator) :
    ∀ (l : List (Option Operator × GroupedExpr)) (cur : Option Operator × GroupedExpr),
      leavesList (collapseGo op cur l) = leaves cur.2 ++ leavesList l := by
  intro l
  induction l with
  | nil => intro cur; simp [collapseGo, leavesList]
  | cons y rest ih =>
    intro cur
    by_cases h : y.1 = some op
    · simp only [collapseGo, h, if_pos, ih, leaves, leavesList]
      simp [List.append_assoc]
    · simp only [collapseGo, h, if_neg, not_false_iff, leavesList, ih]

theorem collapse_leaves (op : Operator)
    (l : List (Option Operator × GroupedExpr)) :
    leavesList (collapse op l) = leavesList l := by
  cases l with
  | nil => rfl
  | cons x rest => simp [collapse, collapseGo_leaves, leavesList]

theorem collapseGo_spec (op : Operator) :
    ∀ (l : List (Option Operator × GroupedExpr)) (cur : Option Operator × GroupedExpr),
      ∃ e t, collapseGo op cur l = (cur.1, e) :: t ∧
        ∀ x ∈ t, x.1 ≠ some op ∧ x.1 ∈ l.map Prod.fst := by
  intro l
  induction l with
  | nil => intro cur; exact ⟨cur.2, [], rfl, by simp⟩
  | cons y rest ih =>
    intro cur
    by_cases h : y.1 = some op
    · obtain ⟨e, t, heq, hmem⟩ := ih (cur.1, GroupedExpr.node cur.2 op y.2)
      refine ⟨e, t, by simpa [collapseGo, h] using heq, ?_⟩
      intro x hx
      exact ⟨(hmem x hx).1, List.mem_cons_of_mem _ (hmem x hx).2⟩
    · obtain ⟨e, t, heq, hmem⟩ := ih y
      refine ⟨cur.2, (y.1, e) :: t, by simp [collapseGo, h, heq], ?_⟩
      intro x hx
      rcases List.mem_cons.mp hx with hx | hx
      · subst hx; exact ⟨h, by simp⟩
      · exact ⟨(hmem x hx).1, List.mem_cons_of_mem _ (hmem x hx).2⟩

theorem leavesList_start (terms : List FieldedSearchTerm) :
    leavesList (terms.map (fun t => (t.operator, GroupedExpr.leaf t))) = terms := by
  induction terms with
  | nil => rfl
  | cons t rest ih => simp [leavesList, leaves, ih]

/-- C1: the Precedence Grouper is strictly left-associative with precedence
NOT > AND > OR: `[A, OR B, NOT C, AND D]` (A's operator `none`) groups to the
exact tree `(A OR ((B NOT C) AND D))`, for arbitrary fields and term texts;
and `a OR b OR c` groups to `((a OR b) OR c)`, never `(a OR (b OR c))`. -/
theorem group_terms_precedence_shape (fa ta fb tb fc tc fd td g1 u1 g2 u2 g3 u3 : String) :
    group_terms [⟨none, fa, ta⟩, ⟨some .OR, fb, tb⟩, ⟨some .NOT, fc, tc⟩,
        ⟨some .AND, fd, td⟩] =
      some (.node (.leaf ⟨none, fa, ta⟩) .OR
        (.node
          (.node (.leaf ⟨some .OR, fb, tb⟩) .NOT (.leaf ⟨some .NOT, fc, tc⟩))
          .AND (.leaf ⟨some .AND, fd, td⟩))) ∧
    group_terms [⟨none, g1, u1⟩, ⟨some .OR, g2, u2⟩, ⟨some .OR, g3, u3⟩] =
      some (.node (.node (.leaf ⟨none, g1, u1⟩) .OR (.leaf ⟨some .OR, g2, u2⟩))
        .OR (.leaf ⟨some .OR, g3, u3⟩)) :=
  ⟨rfl, rfl⟩

/-- C2: for every non-empty term list whose non-leading terms all carry an
operator, the grouper produces a tree whose leaf sequence is exactly the
input list — no term dropped, none duplicated. -/
theorem group_terms_leaves (terms : List FieldedSearchTerm)
    (h1 : terms ≠ [])
    (h2 : ∀ t ∈ terms.tail, (t.operator).isSome) :
    ∃ e, group_terms terms = some e ∧ leaves e = terms := by
  obtain ⟨t0, rest, rfl⟩ := List.exists_cons_of_ne_nil h1
  have hrest : ∀ x ∈ (rest.map (fun t => (t.operator, GroupedExpr.leaf t))).map Prod.fst,
      x.isSome := by
    intro x hx
    simp only [List.map_map, List.mem_map] at hx
    obtain ⟨t, ht, rfl⟩ := hx
    exact h2 t ht
  -- pass 1: collapse NOT
  obtain ⟨e1, t1, heq1, hmem1⟩ :=
    collapseGo_spec Operator.NOT (rest.map (fun t => (t.operator, GroupedExpr.leaf t)))
      (t0.operator, GroupedExpr.leaf t0)
  have ht1 : ∀ x ∈ t1, x.1 ≠ some Operator.NOT ∧ x.1.isSome := fun x hx =>
    ⟨(hmem1 x hx).1, hrest x.1 (hmem1 x hx).2⟩
  -- pass 2: collapse AND
  obtain ⟨e2, t2, heq2, hmem2⟩ := collapseGo_spec Operator.AND t1 (t0.operator, e1)
  have ht2 : ∀ x ∈ t2, x.1 ≠ some Operator.AND ∧ x.1 ≠ some Operator.NOT ∧
      x.1.isSome := by
    intro x hx
    obtain ⟨y, hy, hyx⟩ := List.mem_map.mp (hmem2 x hx).2
    exact ⟨(hmem2 x hx).1, hyx ▸ (ht1 y hy).1, hyx ▸ (ht1 y hy).2⟩
  -- pass 3: collapse OR
  obtain ⟨e3, t3, heq3, hmem3⟩ := collapseGo_spec Operator.OR t2 (t0.operator, e2)
  have ht3 : t3 = [] := by
    cases t3 with
    | nil => rfl
    | cons z zs =>
      exfalso
      have hz := hmem3 z (List.mem_cons_self z zs)
      obtain ⟨y, hy, hyz⟩ := List.mem_map.mp hz.2
      have h1z := hyz ▸ (ht2 y hy).1
      have h2z := hyz ▸ (ht2 y hy).2.1
      have h3z := hyz ▸ (ht2 y hy).2.2
      obtain ⟨o, ho⟩ := Option.isSome_iff_exists.mp h3z
      cases o <;> simp_all
  subst ht3
  have hcoll : collapse Operator.OR (collapse Operator.AND (collapse Operator.NOT
      ((t0 :: rest).map (fun t => (t.operator, GroupedExpr.leaf t))))) =
      [(t0.operator, e3)] := by
    simp only [List.map_cons, collapse, heq1, heq2, heq3]
  refine ⟨e3, ?_, ?_⟩
  · simp only [group_terms, hcoll]
  · have hl : leavesList [(t0.operator, e3)] = t0 :: rest := by
      rw [← hcoll, collapse_leaves, collapse_leaves, collapse_leaves,
        leavesList_start]
    simpa [leavesList] using hl

/-- Witness for C2 at a concrete two-term query. -/
theorem group_terms_leaves_witness :
    ∃ e, group_terms [⟨none, "title", "muon"⟩, ⟨some .AND, "title", "gluon"⟩] =
        some e ∧
      leaves e = [⟨none, "title", "muon"⟩, ⟨some .AND, "title", "gluon"⟩] :=
  group_terms_leaves _ (by decide) (by decide)

namespace Index

/-! Model of `src/search/services/index/__init__.py`. -/

/-- An exception reaching the `handle_es_exceptions` boundary: the four
recognized classes (`NotFoundError`, `TransportError` with its `error` code
and `info` payload, `SerializationError`, `BulkIndexError`) and any other,
unrecognized exception. -/
inductive ESException where
  | notFound
  | transport (error : String) (info : String)
  | serialization (msg : String)
  | bulkIndex (msg : String)
  | unrecognized (msg : String)
deriving DecidableEq, Repr

/-- An error raised (or, for the swallowed case, an abnormal outcome
observed) by the service layer: the exception taxonomy of
`index/exceptions.py` plus `uncaughtPython` for a plain Python runtime error
escaping the layer (e.g. the `UnboundLocalError` that follows a swallowed
backend exception). -/
inductive ServiceError where
  | queryError (info : String)
  | documentNotFound (msg : String)
  | indexConnectionError (msg : String)
  | indexingError (msg : String)
  | mappingError (msg : String)
  | outsideAllowedRange (msg : String)
  | uncaughtPython (msg : String)
deriving DecidableEq, Repr

/-- What the nested `create_index()` call in the `index_not_found_exception`
branch of `handle_es_exceptions` can do: succeed, or raise one of the errors
`create_index` raises (never `OutsideAllowedRange`). -/
inductive CreateIndexErr where
  | indexingError (msg : String)
  | mappingError (msg : String)
  | indexConnectionError (msg : String)
deriving DecidableEq, Repr

def CreateIndexErr.toServiceError : CreateIndexErr → ServiceError
  | .indexingError m => .indexingError m
  | .mappingError m => .mappingError m
  | .indexConnectionError m => .indexConnectionError m

/-- `handle_es_exceptions` (lines 57-89): translates the outcome of the
wrapped operation.  `.ok (some a)` models the block completing normally;
`.ok none` models the context manager suppressing the exception (the
generator returning without re-raising), after which the rest of the
wrapped block is skipped and no value is produced.  `createIndex` is the
outcome of the `create_index()` call made in the
`index_not_found_exception` branch before the fall-through raise. -/
def handle_es_exceptions (createIndex : Except CreateIndexErr Unit)
    (outcome : Except ESException α) : Except ServiceError (Option α) :=
  match outcome with
  | .ok a => .ok (some a)
  | .error .notFound => .error (.documentNotFound "No such document")
  | .error (.transport err info) =>
    if err = "resource_already_exists_exception" then
      .ok none
    else if err = "mapper_parsing_exception" then
      .error (.mappingError ("Invalid mapping: " ++ info))
    else if err = "index_not_found_exception" then
      match createIndex with
      | .error e => .error e.toServiceError
      | .ok _ => .error (.indexConnectionError ("Problem communicating with ES: " ++ err))
    else if err = "parsing_exception" then
      .error (.queryError info)
    else
      .error (.indexConnectionError ("Problem communicating with ES: " ++ err))
  | .error (.serialization m) => .error (.indexingError ("Problem serializing document: " ++ m))
  | .error (.bulkIndex m) => .error (.indexingError ("Problem with bulk indexing: " ++ m))
  | .error (.unrecognized _) => .ok none

/-- `SearchSession.get_document` (lines 252-282): fetch the record inside
`handle_es_exceptions`; a falsy record (`.ok none` fetch payload) raises
`DocumentNotFound`; otherwise the record's `_source` becomes the `Document`.
When the surrounding context manager swallowed an exception, `record` is
unbound and the subsequent `if not record` line raises a Python
`UnboundLocalError`. -/
def get_document (createIndex : Except CreateIndexErr Unit)
    (fetch : Except ESException (Option σ)) : Except ServiceError σ :=
  match handle_es_exceptions createIndex fetch with
  | .error e => .error e
  | .ok none => .error (.uncaughtPython "local variable record referenced before assignment")
  | .ok (some none) => .error (.documentNotFound "No such document")
  | .ok (some (some src)) => .ok src

/-- Bool discriminator: is this a `IndexConnectionError`? -/
def ServiceError.isIndexConnectionError : ServiceError → Bool
  | .indexConnectionError _ => true
  | _ => false

/-- Bool discriminator on outcomes: did the operation fail with
`IndexConnectionError`? -/
def outcomeIsIndexConnectionError : Except ServiceError β → Bool
  | .error e => e.isIndexConnectionError
  | .ok _ => false

/-- C4: evaluation at the failing input — an exception that is none of the
four recognized classes is suppressed by `handle_es_exceptions` (the
`except Exception` clause logs and falls off the end of the generator
without re-raising), so the wrapped operation completes normally with no
value instead of the fault being re-raised to the caller. -/
theorem handle_es_exceptions_swallows_unrecognized :
    handle_es_exceptions (.ok ())
      (.error (.unrecognized "boom") : Except ESException Nat) = .ok none :=
  rfl

/-- C6 counterexample: the transport fault `mapper_parsing_exception` — not
one of the claim's named cases, hence an "other transport fault" — is
translated to `MappingError`, not `IndexConnectionError`. -/
theorem transport_mapper_parsing_is_mapping_error :
    handle_es_exceptions (.ok ())
        (.error (.transport "mapper_parsing_exception" "bad")
          : Except ESException Nat) =
      .error (.mappingError "Invalid mapping: bad") ∧
    outcomeIsIndexConnectionError (handle_es_exceptions (.ok ())
      (.error (.transport "mapper_parsing_exception" "bad")
        : Except ESException Nat)) = false :=
  ⟨rfl, rfl⟩

/-- C6 (amended): backend not-found faults surface as `DocumentNotFound`
(and `get_document` raises `DocumentNotFound` exactly when the document is
absent, returning the source record when present); `parsing_exception`
becomes `QueryError`; transport faults other than the three specially
handled codes become `IndexConnectionError`; of the special codes,
`mapper_parsing_exception` becomes `MappingError`,
`resource_already_exists_exception` is suppressed (the wrapped operation is
abandoned with no value and no error), and `index_not_found_exception`
triggers an index-creation attempt and then `IndexConnectionError`. -/
theorem transport_fault_translation {σ : Type}
    (ci : Except CreateIndexErr Unit) (info err : String) (src : σ)
    (herr : err ∉ ["resource_already_exists_exception",
      "mapper_parsing_exception", "index_not_found_exception",
      "parsing_exception"]) :
    get_document ci (.error .notFound : Except ESException (Option σ)) =
      .error (.documentNotFound "No such document") ∧
    get_document ci (.ok none : Except ESException (Option σ)) =
      .error (.documentNotFound "No such document") ∧
    get_document ci (.ok (some src)) = .ok src ∧
    handle_es_exceptions ci
        (.error (.transport "parsing_exception" info) : Except ESException σ) =
      .error (.queryError info) ∧
    handle_es_exceptions ci
        (.error (.transport "mapper_parsing_exception" info)
          : Except ESException σ) =
      .error (.mappingError ("Invalid mapping: " ++ info)) ∧
    handle_es_exceptions ci
        (.error (.transport "resource_already_exists_exception" info)
          : Except ESException σ) =
      .ok none ∧
    handle_es_exceptions (.ok ())
        (.error (.transport "index_not_found_exception" info)
          : Except ESException σ) =
      .error (.indexConnectionError
        "Problem communicating with ES: index_not_found_exception") ∧
    handle_es_exceptions ci
        (.error (.transport err info) : Except ESException σ) =
      .error (.indexConnectionError ("Problem communicating with ES: " ++ err)) := by
  simp only [List.mem_cons, List.not_mem_nil, or_false, not_or] at herr
  obtain ⟨h1, h2, h3, h4⟩ := herr
  refine ⟨rfl, rfl, rfl, rfl, rfl, rfl, rfl, ?_⟩
  simp [handle_es_exceptions, h1, h2, h3, h4]

/-- Witness for C6's amended theorem at a concrete fault code. -/
theorem transport_fault_translation_witness :
    get_document (.ok ()) (.error .notFound : Except ESException (Option Nat)) =
      .error (.documentNotFound "No such document") ∧
    get_document (.ok ()) (.ok none : Except ESException (Option Nat)) =
      .error (.documentNotFound "No such document") ∧
    get_document (.ok ()) (.ok (some 7)) = .ok 7 ∧
    handle_es_exceptions (.ok ())
        (.error (.transport "parsing_exception" "oops") : Except ESException Nat) =
      .error (.queryError "oops") ∧
    handle_es_exceptions (.ok ())
        (.error (.transport "mapper_parsing_exception" "oops")
          : Except ESException Nat) =
      .error (.mappingError ("Invalid mapping: " ++ "oops")) ∧
    handle_es_exceptions (.ok ())
        (.error (.transport "resource_already_exists_exception" "oops")
          : Except ESException Nat) =
      .ok none ∧
    handle_es_exceptions (.ok ())
        (.error (.transport "index_not_found_exception" "oops")
          : Except ESException Nat) =
      .error (.indexConnectionError
        "Problem communicating with ES: index_not_found_exception") ∧
    handle_es_exceptions (.ok ())
        (.error (.transport "request_timeout" "oops") : Except ESException Nat) =
      .error (.indexConnectionError
        ("Problem communicating with ES: " ++ "request_timeout")) :=
  transport_fault_translation (.ok ()) "oops" "request_timeout" 7 (by decide)

/-- Pagination attributes of a domain `Query` (`page` is 1-indexed). -/
structure PageInfo where
  page : Nat
  page_size : Nat
deriving DecidableEq, Repr

/-- Modelled from the spec (§4.5): the derived offset `page_start =
(page-1) * page_size` of the domain `Query` (the domain module is not under
`src/`). -/
def PageInfo.page_start (p : PageInfo) : Nat := (p.page - 1) * p.page_size

/-- Modelled from the spec (§4.5): the derived offset `page_end =
page_start + page_size`. -/
def PageInfo.page_end (p : PageInfo) : Nat := p.page_start + p.page_size

/-- A `Query` as dispatched on by `SearchSession.search`: an
`AdvancedQuery` (payload `A`), a `SimpleQuery` (payload `S`), or any other
query kind, which matches neither `isinstance` test. -/
inductive Query (A S : Type) where
  | advanced (p : PageInfo) (payload : A)
  | simple (p : PageInfo) (payload : S)
  | otherKind (p : PageInfo)

def Query.pageInfo : Query A S → PageInfo
  | .advanced p _ => p
  | .simple p _ => p
  | .otherKind p => p

/-- The request `SearchSession.search` hands to the Elasticsearch client:
the optional compiled constraint (`none` = the unconstrained
`_base_search()`), whether `prepare.highlight` configuration was applied,
and the pagination slice bounds. -/
structure ESRequest (C : Type) where
  constraint : Option C
  highlighted : Bool
  start : Option Nat
  stop : Option Nat
deriving DecidableEq, Repr

/-- The `execute()` exchange of `SearchSession.search` (lines 327-332):
run the backend inside `handle_es_exceptions`, then post-process with
`results.to_documentset`.  A swallowed exception (`.ok none`) leaves `resp`
unbound, so the following post-processing line raises a Python
`UnboundLocalError`. -/
def executeSearch (backend : ESRequest C → Except ESException R)
    (createIndex : Except CreateIndexErr Unit) (toDocset : R → D)
    (req : ESRequest C) : Except ServiceError D :=
  match handle_es_exceptions createIndex (backend req) with
  | .error e => .error e
  | .ok (some r) => .ok (toDocset r)
  | .ok none =>
    .error (.uncaughtPython "local variable resp referenced before assignment")

/-- `SearchSession.search` (lines 285-332), parameterized over the modules
it imports but that are not under `src/`: `prepare.advanced` /
`prepare.simple` (which may raise `TypeError`, modelled as `.error ()`),
the backend exchange, and `results.to_documentset`.  Returns the outcome
together with the list of requests issued to the backend.  The guard
computes `max_pages = int(MAX_RESULTS / page_size)` and rejects
`page > max_pages` before any backend interaction. -/
def SearchSession.search (maxResults : Nat)
    (prepAdvanced : A → Except Unit C) (prepSimple : S → Except Unit C)
    (backend : ESRequest C → Except ESException R)
    (createIndex : Except CreateIndexErr Unit) (toDocset : R → D)
    (q : Query A S) : Except ServiceError D × List (ESRequest C) :=
  let maxPages := maxResults / q.pageInfo.page_size
  if q.pageInfo.page > maxPages then
    (.error (.outsideAllowedRange ("Requested page " ++
      toString q.pageInfo.page ++ ", but max is " ++ toString maxPages)), [])
  else
    let compiled : Except ServiceError (Option C) :=
      match q with
      | .advanced _ a =>
        match prepAdvanced a with
        | .ok c => .ok (some c)
        | .error _ => .error (.queryError "Malformed query")
      | .simple _ s =>
        match prepSimple s with
        | .ok c => .ok (some c)
        | .error _ => .error (.queryError "Malformed query")
      | .otherKind _ => .ok none
    match compiled with
    | .error e => (.error e, [])
    | .ok c =>
      let req : ESRequest C :=
        ⟨c, true, some q.pageInfo.page_start, some q.pageInfo.page_end⟩
      (executeSearch backend createIndex toDocset req, [req])

/-- Bool discriminator on outcomes: did the operation fail with
`OutsideAllowedRange`? -/
def outcomeIsOutsideAllowedRange : Except ServiceError β → Bool
  | .error (.outsideAllowedRange _) => true
  | _ => false

theorem handle_es_exceptions_not_outside (ci : Except CreateIndexErr Unit)
    (o : Except ESException α) :
    outcomeIsOutsideAllowedRange (handle_es_exceptions ci o) = false := by
  cases o with
  | ok a => rfl
  | error e =>
    cases e with
    | notFound => rfl
    | serialization m => rfl
    | bulkIndex m => rfl
    | unrecognized m => rfl
    | transport err info =>
      simp only [handle_es_exceptions]
      split_ifs <;>
        first
          | rfl
          | (cases ci with
              | error e2 => cases e2 <;> rfl
              | ok u => rfl)

theorem executeSearch_not_outside (backend : ESRequest C → Except ESException R)
    (ci : Except CreateIndexErr Unit) (toDocset : R → D) (req : ESRequest C) :
    outcomeIsOutsideAllowedRange (executeSearch backend ci toDocset req) = false := by
  unfold executeSearch
  cases hh : handle_es_exceptions ci (backend req) with
  | error e =>
    have h := handle_es_exceptions_not_outside ci (backend req)
    rw [hh] at h
    cases e <;>
      first
        | rfl
        | simp [outcomeIsOutsideAllowedRange] at h
  | ok o => cases o <;> rfl

/-- C3: `search` computes `max_pages = floor(MAX_RESULTS / page_size)`; it
fails with `OutsideAllowedRange` exactly when `page > max_pages`, and in
that case no backend request is issued. -/
theorem search_pagination_guard {A S C R D : Type} (maxResults : Nat)
    (prepAdvanced : A → Except Unit C) (prepSimple : S → Except Unit C)
    (backend : ESRequest C → Except ESException R)
    (createIndex : Except CreateIndexErr Unit) (toDocset : R → D)
    (q : Query A S) (hps : 0 < q.pageInfo.page_size) :
    (outcomeIsOutsideAllowedRange
        (SearchSession.search maxResults prepAdvanced prepSimple backend
          createIndex toDocset q).1 = true ↔
      q.pageInfo.page > maxResults / q.pageInfo.page_size) ∧
    (q.pageInfo.page > maxResults / q.pageInfo.page_size →
      (SearchSession.search maxResults prepAdvanced prepSimple backend
        createIndex toDocset q).2 = []) := by
  by_cases h : q.pageInfo.page > maxResults / q.pageInfo.page_size
  · constructor
    · simp [SearchSession.search, h, outcomeIsOutsideAllowedRange]
    · intro _
      simp [SearchSession.search, h]
  · have hq : outcomeIsOutsideAllowedRange
        (SearchSession.search maxResults prepAdvanced prepSimple backend
          createIndex toDocset q).1 = false := by
      simp only [SearchSession.search, if_neg h]
      cases q with
      | advanced p a =>
        cases ha : prepAdvanced a with
        | ok c =>
          simp only [ha]
          exact executeSearch_not_outside backend createIndex toDocset _
        | error u => simp [ha, outcomeIsOutsideAllowedRange]
      | simple p s =>
        cases hs : prepSimple s with
        | ok c =>
          simp only [hs]
          exact executeSearch_not_outside backend createIndex toDocset _
        | error u => simp [hs, outcomeIsOutsideAllowedRange]
      | otherKind p =>
        exact executeSearch_not_outside backend createIndex toDocset _
    refine ⟨?_, fun hc => absurd hc h⟩
    rw [hq]
    simp [h]

/-- Trivial stub for the prepare modules, used to instantiate witnesses. -/
def stubPrepare : Unit → Except Unit Unit := fun _ => .ok ()

/-- Trivial stub backend, used to instantiate witnesses. -/
def stubBackend : ESRequest Unit → Except ESException Unit := fun _ => .ok ()

/-- Trivial stub result transformer, used to instantiate witnesses. -/
def stubToDocset : Unit → Unit := fun _ => ()

/-- Witness for C3 at a deep page: `MAX_RESULTS = 10000`, `page_size = 25`
gives `max_pages = 400`, and page 500 is rejected with no backend call. -/
theorem search_pagination_guard_witness :
    outcomeIsOutsideAllowedRange
        (SearchSession.search 10000 stubPrepare stubPrepare stubBackend
          (.ok ()) stubToDocset (Query.otherKind ⟨500, 25⟩)).1 = true ∧
    (SearchSession.search 10000 stubPrepare stubPrepare stubBackend
      (.ok ()) stubToDocset (Query.otherKind ⟨500, 25⟩)).2 = [] := by
  have h := search_pagination_guard 10000 stubPrepare stubPrepare stubBackend
    (.ok ()) stubToDocset (Query.otherKind ⟨500, 25⟩) (by decide)
  exact ⟨h.1.mpr (by decide), h.2 (by decide)⟩

/-- C8: a query of neither known kind that passes the pagination guard is
compiled to the unconstrained base search (no term or filter constraints,
`constraint := none`): the backend receives exactly the highlighted,
sliced base request, and no query-kind error is raised at dispatch. -/
theorem search_unknown_query_kind {A S C R D : Type} (maxResults : Nat)
    (prepAdvanced : A → Except Unit C) (prepSimple : S → Except Unit C)
    (backend : ESRequest C → Except ESException R)
    (createIndex : Except CreateIndexErr Unit) (toDocset : R → D)
    (p : PageInfo) (h : p.page ≤ maxResults / p.page_size) :
    SearchSession.search maxResults prepAdvanced prepSimple backend
        createIndex toDocset (Query.otherKind p : Query A S) =
      (executeSearch backend createIndex toDocset
        ⟨none, true, some p.page_start, some p.page_end⟩,
       [⟨none, true, some p.page_start, some p.page_end⟩]) := by
  simp [SearchSession.search, Query.pageInfo, Nat.not_lt.mpr h]

/-- Witness for C8 at page 1, page size 25 (passes the guard for
`MAX_RESULTS = 10000`). -/
theorem search_unknown_query_kind_witness :
    SearchSession.search 10000 stubPrepare stubPrepare stubBackend
        (.ok ()) stubToDocset (Query.otherKind ⟨1, 25⟩ : Query Unit Unit) =
      (executeSearch stubBackend (.ok ()) stubToDocset
        ⟨none, true, some (PageInfo.page_start ⟨1, 25⟩),
          some (PageInfo.page_end ⟨1, 25⟩)⟩,
       [⟨none, true, some (PageInfo.page_start ⟨1, 25⟩),
          some (PageInfo.page_end ⟨1, 25⟩)⟩]) :=
  search_unknown_query_kind 10000 stubPrepare stubPrepare stubBackend
    (.ok ()) stubToDocset ⟨1, 25⟩ (by decide)

/-- A fault thrown by the cluster health check: the `urllib3` HTTP error
caught by the first `except` clause of `cluster_available`, or any other
exception, caught by its second. -/
inductive HealthCheckFault where
  | httpError (msg : String)
  | otherException (msg : String)
deriving DecidableEq, Repr

/-- `SearchSession.cluster_available` (lines 150-166): `True` when the
health call returns, `False` on an HTTP error and on any other
exception. -/
def cluster_available (health : Except HealthCheckFault Unit) : Bool :=
  match health with
  | .ok _ => true
  | .error (.httpError _) => false
  | .error (.otherException _) => false

/-- C9: `cluster_available` is total over backend outcomes — `True` when
the health check succeeds, `False` on every exception (HTTP or otherwise);
no exception propagates. -/
theorem cluster_available_total :
    cluster_available (.ok ()) = true ∧
      ∀ f, cluster_available (.error f) = false :=
  ⟨rfl, fun f => by cases f <;> rfl⟩

/-- An observable backend operation of the indexing entry points. -/
inductive ESOp where
  | existsCheck
  | createIdx
  | indexDoc
  | bulkIndex
deriving DecidableEq, Repr

/-- `SearchSession.create_index` (lines 168-185): raises `IndexingError`
when no mapping path is configured, otherwise creates the index.  The
ES-side create call (made inside `handle_es_exceptions` after reading the
mapping file) is modelled as succeeding; its faults are orthogonal to the
indexing claims. -/
def create_index (mappingSet : Bool) : Except ServiceError (List ESOp) :=
  if mappingSet then .ok [ESOp.createIdx]
  else .error (.indexingError "Mapping not set")

/-- `SearchSession.add_document` (lines 187-214): check index existence,
create the index when absent, then index the document. -/
def add_document (mappingSet indexExists : Bool) :
    Except ServiceError (List ESOp) :=
  if indexExists then .ok [ESOp.existsCheck, ESOp.indexDoc]
  else
    match create_index mappingSet with
    | .error e => .error e
    | .ok ops => .ok (ESOp.existsCheck :: (ops ++ [ESOp.indexDoc]))

/-- `SearchSession.bulk_add_documents` (lines 216-250): check index
existence, create the index when absent, then bulk-index the documents. -/
def bulk_add_documents (mappingSet indexExists : Bool) :
    Except ServiceError (List ESOp) :=
  if indexExists then .ok [ESOp.existsCheck, ESOp.bulkIndex]
  else
    match create_index mappingSet with
    | .error e => .error e
    | .ok ops => .ok (ESOp.existsCheck :: (ops ++ [ESOp.bulkIndex]))

/-- Replays an operation trace from an initial index-existence state and
checks that every (bulk-)indexing operation happens while the index
exists. -/
def indexPresentThroughout (present : Bool) : List ESOp → Bool
  | [] => true
  | .createIdx :: rest => indexPresentThroughout true rest
  | .indexDoc :: rest => present && indexPresentThroughout present rest
  | .bulkIndex :: rest => present && indexPresentThroughout present rest
  | .existsCheck :: rest => indexPresentThroughout present rest

/-- C10: `add_document` and `bulk_add_documents` begin with the existence
check, create the index when it is absent, and only then index: provided
the mapping is configured or the index already exists, both succeed, their
traces start with the existence check, contain the indexing operation, and
every indexing operation runs while the index exists — indexing never
fails solely because the index was absent. -/
theorem indexing_creates_missing_index (mappingSet indexExists : Bool)
    (h : mappingSet = true ∨ indexExists = true) :
    (∃ ops, add_document mappingSet indexExists = .ok ops ∧
      ops.head? = some .existsCheck ∧ ESOp.indexDoc ∈ ops ∧
      indexPresentThroughout indexExists ops = true) ∧
    (∃ ops, bulk_add_documents mappingSet indexExists = .ok ops ∧
      ops.head? = some .existsCheck ∧ ESOp.bulkIndex ∈ ops ∧
      indexPresentThroughout indexExists ops = true) := by
  cases mappingSet with
  | true =>
    cases indexExists with
    | true => exact ⟨⟨_, rfl, rfl, by decide, rfl⟩, ⟨_, rfl, rfl, by decide, rfl⟩⟩
    | false => exact ⟨⟨_, rfl, rfl, by decide, rfl⟩, ⟨_, rfl, rfl, by decide, rfl⟩⟩
  | false =>
    cases indexExists with
    | true => exact ⟨⟨_, rfl, rfl, by decide, rfl⟩, ⟨_, rfl, rfl, by decide, rfl⟩⟩
    | false => simp at h

/-- Witness for C10 with the index initially absent and a mapping
configured. -/
theorem indexing_creates_missing_index_witness :
    (∃ ops, add_document true false = .ok ops ∧
      ops.head? = some .existsCheck ∧ ESOp.indexDoc ∈ ops ∧
      indexPresentThroughout false ops = true) ∧
    (∃ ops, bulk_add_documents true false = .ok ops ∧
      ops.head? = some .existsCheck ∧ ESOp.bulkIndex ∈ ops ∧
      indexPresentThroughout false ops = true) :=
  indexing_creates_missing_index true false (Or.inl rfl)

end Index

namespace Legacy

/-! Model of the flat `src/search/services/index.py` module
(`SearchSession.search` lines 116-148 and `SearchSession._transform`
lines 150-155). -/

/-- A raw Elasticsearch hit: its `_source` dict, `_score` and `_type`.
Field values (including the relevance score, a float merely copied, never
computed with) are an arbitrary type `V`. -/
structure RawHit (V : Type) where
  source : List (String × V)
  score : V
  type : V

/-- Python dict assignment `d[k] = v`: overwrite in place when the key is
present (keeping its position), otherwise append. -/
def dictSet (d : List (String × V)) (k : String) (v : V) : List (String × V) :=
  match d with
  | [] => [(k, v)]
  | (k', v') :: rest =>
    if k' = k then (k, v) :: rest else (k', v') :: dictSet rest k v

/-- Python dict read `d.get(k)`: first binding wins. -/
def dictGet (d : List (String × V)) (k : String) : Option V :=
  match d with
  | [] => none
  | (k', v') :: rest => if k' = k then some v' else dictGet rest k

/-- `SearchSession._transform`: start from the hit's `_source` and attach
`score` and `type` from the hit's `_score` / `_type`. -/
def transform (raw : RawHit V) : List (String × V) :=
  dictSet (dictSet raw.source "score" raw.score) "type" raw.type

/-- A raw search response: `hits.total` and the ordered `hits.hits`. -/
structure ESHits (V : Type) where
  total : Nat
  hits : List (RawHit V)

/-- The typed result wrapper returned by `search`. -/
structure ResultSet (V : Type) where
  count : Nat
  results : List (List (String × V))
deriving DecidableEq

/-- The result construction of `SearchSession.search` (lines 145-148):
`count` is `hits.total`, `results` maps `_transform` over `hits.hits`. -/
def searchResultSet (resp : ESHits V) : ResultSet V :=
  ⟨resp.total, resp.hits.map transform⟩

theorem dictGet_set_self (d : List (String × V)) (k : String) (v : V) :
    dictGet (dictSet d k v) k = some v := by
  induction d with
  | nil => simp [dictSet, dictGet]
  | cons p rest ih =>
    by_cases h : p.1 = k
    · simp [dictSet, dictGet, h]
    · simp [dictSet, dictGet, h, ih]

theorem dictGet_set_ne (d : List (String × V)) (k k' : String) (v : V)
    (h : k ≠ k') :
    dictGet (dictSet d k v) k' = dictGet d k' := by
  induction d with
  | nil => simp [dictSet, dictGet, h]
  | cons p rest ih =>
    by_cases hp : p.1 = k
    · simp [dictSet, dictGet, hp, h]
    · simp only [dictSet, dictGet, if_neg hp]
      by_cases hp' : p.1 = k'
      · simp [hp']
      · simp [hp', ih]

/-- C5: the result transformer sets `count` to the backend's total matched
(independently of how many hits were returned), keeps the hits in
backend-returned rank order (position `i` of `results` is the transform of
hit `i`), attaches the backend relevance score and type tag to every
mapped document, and turns a zero-hit response into `count 0` with empty
`results`, raising nothing. -/
theorem search_result_transform (V : Type) (resp : ESHits V) :
    (searchResultSet resp).count = resp.total ∧
    (∀ i : Nat, (searchResultSet resp).results[i]? =
      (resp.hits[i]?).map transform) ∧
    (∀ raw : RawHit V, dictGet (transform raw) "score" = some raw.score ∧
      dictGet (transform raw) "type" = some raw.type) ∧
    searchResultSet ⟨0, ([] : List (RawHit V))⟩ = ⟨0, []⟩ := by
  refine ⟨rfl, ?_, ?_, rfl⟩
  · intro i
    simp [searchResultSet]
  · intro raw
    constructor
    · rw [transform, dictGet_set_ne _ _ _ _ (by decide), dictGet_set_self]
    · rw [transform, dictGet_set_self]

end Legacy

namespace Forms

/-! Model of the `DateForm` validators of
`src/search/controllers/advanced/forms.py`. -/

/-- A Python `datetime.date`; comparison is lexicographic on
(year, month, day). -/
structure PyDate where
  year : Nat
  month : Nat
  day : Nat
deriving DecidableEq, Repr

/-- Python `date` strict comparison `a < b`. -/
def PyDate.ltb (a b : PyDate) : Bool :=
  if a.year ≠ b.year then decide (a.year < b.year)
  else if a.month ≠ b.month then decide (a.month < b.month)
  else decide (a.day < b.day)

/-- The data of a submitted `DateForm`: the four toggles and the three
optional date fields (`year` is parsed with format `%Y`, so it carries
January 1 of the chosen year). -/
structure DateFormData where
  all_dates : Bool
  past_12 : Bool
  specific_year : Bool
  year : Option PyDate
  date_range : Bool
  from_date : Option PyDate
  to_date : Option PyDate
deriving DecidableEq, Repr

/-- Python `int(bool)`. -/
def boolToInt (b : Bool) : Nat := if b then 1 else 0

/-- `DateForm.validate_all_dates` (lines 58-64): `true` iff no
`ValidationError` is raised — at most one of the four toggles selected. -/
def validate_all_dates (f : DateFormData) : Bool :=
  decide (boolToInt f.all_dates + boolToInt f.past_12 +
    boolToInt f.specific_year + boolToInt f.date_range ≤ 1)

/-- `DateForm.validate_date_range` (lines 71-79): passes when the
`date_range` toggle is off; otherwise fails when neither bound is given,
and fails when both are given with `from_date >= to_date`. -/
def validate_date_range (f : DateFormData) : Bool :=
  if !f.date_range then true
  else
    match f.from_date, f.to_date with
    | none, none => false
    | some a, some b => PyDate.ltb a b
    | _, _ => true

/-- `DateForm.validate_year` (lines 81-87): passes when no year is given;
otherwise fails when the date is before 1991-01-01 or after today. -/
def validate_year (today : PyDate) (f : DateFormData) : Bool :=
  match f.year with
  | none => true
  | some y => !(PyDate.ltb y ⟨1991, 1, 1⟩ || PyDate.ltb today y)

/-- All three claimed validators pass. -/
def date_validators_pass (today : PyDate) (f : DateFormData) : Bool :=
  validate_all_dates f && validate_year today f && validate_date_range f

/-- C7 counterexample: a form with only the `date_range` toggle selected
and no bound supplied satisfies all three constraints of the claim (at
most one toggle, no out-of-range year, no reversed both-bound range), yet
`validate_date_range` raises `ValidationError`
("Must select start and/or end date(s)"), refuting the claim's "inputs
satisfying all three constraints pass these validators". -/
theorem date_form_counterexample :
    validate_all_dates ⟨false, false, false, none, true, none, none⟩ = true ∧
    (⟨false, false, false, none, true, none, none⟩ : DateFormData).year = none ∧
    (⟨false, false, false, none, true, none, none⟩ : DateFormData).from_date = none ∧
    (⟨false, false, false, none, true, none, none⟩ : DateFormData).to_date = none ∧
    date_validators_pass ⟨2026, 10, 12⟩
      ⟨false, false, false, none, true, none, none⟩ = false := by
  decide

/-- C7 (amended): the three validators pass exactly when at most one of
the four toggles is selected, any supplied year lies in
[1991-01-01, today], and — when the date-range toggle is selected — at
least one bound is supplied and, when both are, start < end. -/
theorem date_validators_pass_iff (today : PyDate) (f : DateFormData) :
    date_validators_pass today f = true ↔
      ((boolToInt f.all_dates + boolToInt f.past_12 +
          boolToInt f.specific_year + boolToInt f.date_range ≤ 1) ∧
       (∀ y, f.year = some y →
          PyDate.ltb y ⟨1991, 1, 1⟩ = false ∧ PyDate.ltb today y = false) ∧
       (f.date_range = true →
          (f.from_date ≠ none ∨ f.to_date ≠ none) ∧
          (∀ a b, f.from_date = some a → f.to_date = some b →
            PyDate.ltb a b = true))) := by
  obtain ⟨ad, p12, sy, yr, dr, fd, td⟩ := f
  cases yr <;> cases fd <;> cases td <;> cases dr <;>
    (simp [date_validators_pass, validate_all_dates, validate_year,
      validate_date_range]
     try tauto)

end Forms

end ArxivSearch
